import Mathlib

/-!
Verification of the TravelChatbot slot-filling core.

Shallow embedding of:
- `models.py` (`TravelRequest.is_complete`, `TravelRequest.missing_fields`),
- `travel_ai.py` (`TravelAI._update_request`, `TravelAI.extract_travel_info`
  failure semantics, `TravelAI.generate_follow_up_question`),
- `main.py` (`TravelBookingAPI.process_message`, `_handle_complete_request`;
  `app.py` carries the same logic with string-formatted responses),
- `api/index.py` (`Handler.process_travel_request`, `Handler._is_email_only`,
  `Handler._complete_travel_request`).

Calendar dates are embedded as `Int` ordinal day numbers: `date + timedelta(days := n)`
becomes `d + n`, and `(r - d).days` becomes `r - d`.  Python truthiness is made
explicit: `None` and `""` are falsy for strings, `None` and `0` are falsy for
ints, `None` and `0.0` for floats, a `date` object is always truthy.
-/

/-- Model of `TravelRequest` from `models.py`.  Optional fields default to `None`,
`passengers` defaults to `1` (the pydantic `Field` carries no lower bound). -/
structure TravelRequest where
  origin : Option String := none
  destination : Option String := none
  departure_date : Option Int := none
  return_date : Option Int := none
  duration_days : Option Int := none
  passengers : Int := 1
  user_email : Option String := none
  budget : Option Rat := none
deriving DecidableEq

/-- Python truthiness of an optional string: `None` and `""` are falsy. -/
def pyTruthyStr (o : Option String) : Bool :=
  match o with
  | none => false
  | some s => s ≠ ""

/-- Python truthiness of an optional int: `None` and `0` are falsy. -/
def pyTruthyInt (o : Option Int) : Bool :=
  match o with
  | none => false
  | some n => n ≠ 0

/-- Python truthiness of an optional float: `None` and `0.0` are falsy. -/
def pyTruthyRat (o : Option Rat) : Bool :=
  match o with
  | none => false
  | some q => q ≠ 0

/-- Python truthiness of an optional `date`: a date object is always truthy. -/
def pyTruthyDate (o : Option Int) : Bool :=
  o.isSome

/-- Embedding of `TravelRequest.is_complete` (`models.py` lines 27-34):
`all([self.origin, self.destination, self.departure_date, self.user_email])`,
i.e. Python truthiness of the four required fields. -/
def TravelRequest.is_complete (r : TravelRequest) : Bool :=
  pyTruthyStr r.origin && pyTruthyStr r.destination &&
    pyTruthyDate r.departure_date && pyTruthyStr r.user_email

/-- Embedding of `TravelRequest.missing_fields` (`models.py` lines 36-47): appends, in fixed
order, each required field whose value is falsy. -/
def TravelRequest.missing_fields (r : TravelRequest) : List String :=
  (if pyTruthyStr r.origin then [] else ["origin"]) ++
  (if pyTruthyStr r.destination then [] else ["destination"]) ++
  (if pyTruthyDate r.departure_date then [] else ["departure_date"]) ++
  (if pyTruthyStr r.user_email then [] else ["user_email"])

/-- A date value inside an extraction patch: the oracle sends a string which
`_update_request` parses with `strptime`; a `ValueError` makes the loop
`continue`, keeping the base value. -/
inductive DateInput where
  | valid (d : Int)
  | malformed
deriving DecidableEq

/-- The `extracted_info` patch produced by the extraction oracle: every field
is explicitly nullable (`null` means "not mentioned / uncertain"). -/
structure ExtractedInfo where
  origin : Option String := none
  destination : Option String := none
  departure_date : Option DateInput := none
  return_date : Option DateInput := none
  duration_days : Option Int := none
  passengers : Option Int := none
  budget : Option Rat := none
  user_email : Option String := none
deriving DecidableEq

/-- One step of the overwrite loop in `_update_request`: a non-null patch value
overwrites, a null patch value keeps the base. -/
def patchField {α : Type} (base : Option α) (p : Option α) : Option α :=
  match p with
  | some v => some v
  | none => base

/-- Overwrite step for date fields: a parseable string overwrites, a malformed
string is skipped (`except ValueError: continue`), null keeps the base. -/
def patchDate (base : Option Int) (p : Option DateInput) : Option Int :=
  match p with
  | some (.valid d) => some d
  | some .malformed => base
  | none => base

/-- Overwrite step for `passengers` (a non-optional field): a non-null patch
value overwrites the current value. -/
def patchPassengers (base : Int) (p : Option Int) : Int :=
  match p with
  | some v => v
  | none => base

/-- The literal-overwrite phase of `TravelAI._update_request`
(`travel_ai.py` lines 128-139): start from `current_request.model_dump()` and
overwrite each field whose patch value is not `None`. -/
def applyPatch (cur : TravelRequest) (p : ExtractedInfo) : TravelRequest :=
  { origin := patchField cur.origin p.origin
    destination := patchField cur.destination p.destination
    departure_date := patchDate cur.departure_date p.departure_date
    return_date := patchDate cur.return_date p.return_date
    duration_days := patchField cur.duration_days p.duration_days
    passengers := patchPassengers cur.passengers p.passengers
    user_email := patchField cur.user_email p.user_email
    budget := patchField cur.budget p.budget }

/-- The derivation phase of `TravelAI._update_request`
(`travel_ai.py` lines 141-156), with Python truthiness spelled out:
`update_data.get("duration_days")` is falsy for `None` and for `0`,
a present date is always truthy. -/
def derive (u : TravelRequest) : TravelRequest :=
  if pyTruthyDate u.departure_date && pyTruthyInt u.duration_days &&
      !pyTruthyDate u.return_date then
    { u with return_date := some (u.departure_date.getD 0 + u.duration_days.getD 0) }
  else if pyTruthyDate u.departure_date && pyTruthyDate u.return_date &&
      !pyTruthyInt u.duration_days then
    { u with duration_days := some (u.return_date.getD 0 - u.departure_date.getD 0) }
  else
    u

/-- Embedding of `TravelAI._update_request` (`travel_ai.py` lines 124-158): literal
overwrites followed by one run of the return-date/duration derivation. -/
def update_request (cur : TravelRequest) (p : ExtractedInfo) : TravelRequest :=
  derive (applyPatch cur p)

/-- Character class `[a-zA-Z0-9._%+-]` of the local part in
the regex of `Handler._is_email_only` (`api/index.py` line 181). -/
def isLocalChar (c : Char) : Bool :=
  c.isAlpha || c.isDigit || c = '.' || c = '_' || c = '%' || c = '+' || c = '-'

/-- Character class `[a-zA-Z0-9.-]` of the domain part of the same regex. -/
def isDomainChar (c : Char) : Bool :=
  c.isAlpha || c.isDigit || c = '.' || c = '-'

/-- Matcher for `^[a-zA-Z0-9._%+-]+@[a-zA-Z0-9.-]+\.[a-zA-Z]\x7b2,\x7d$` on an
exploded string.  The local part cannot contain `@`, so the `@` consumed by the
regex is the first `@`; everything after the last `.` of the remainder must be
two or more letters, and everything between `@` and that `.` must be a
non-empty run of domain characters. -/
def matchEmailChars (cs : List Char) : Bool :=
  let l := cs.takeWhile (fun c => c ≠ '@')
  match cs.drop l.length with
  | '@' :: rest =>
    (!l.isEmpty) && l.all isLocalChar &&
      (let rrev := rest.reverse
       let tldRev := rrev.takeWhile (fun c => c ≠ '.')
       match rrev.drop tldRev.length with
       | '.' :: brev =>
         decide (2 ≤ tldRev.length) && tldRev.all Char.isAlpha &&
           (!brev.isEmpty) && brev.all isDomainChar
       | _ => false)
  | _ => false

/-- Python `str.strip()`: drop leading and trailing whitespace (embedded over
the ASCII whitespace characters). -/
def pyStrip (s : String) : String :=
  String.mk (((s.data.dropWhile Char.isWhitespace).reverse.dropWhile
    Char.isWhitespace).reverse)

/-- Embedding of `Handler._is_email_only` (`api/index.py` lines 178-182):
`re.match(email_pattern, message.strip())` on the stripped message. -/
def is_email_only (message : String) : Bool :=
  matchEmailChars (pyStrip message).data

/-- The session stores: `SESSIONS` in `api/index.py` (which stores
a singleton dict keyed by "travel_request", embedded as `r`), `self.sessions` in
`app.py`/`main.py`. -/
def Store : Type := String → Option TravelRequest

/-- Assignment `store[key] = value`. -/
def storePut (s : Store) (k : String) (v : TravelRequest) : Store :=
  fun k' => if k' = k then some v else s k'

/-- Deletion `del store[key]` (guarded by `if key in store`, which a total deletion
subsumes). -/
def storeDel (s : Store) (k : String) : Store :=
  fun k' => if k' = k then none else s k'

/-- Lookup `store.get(key)`. -/
def storeGet (s : Store) (k : String) : Option TravelRequest := s k

/-- The store with no sessions. -/
def emptyStore : Store := fun _ => none

/-- Package record returned by the search oracle, `TravelPackage` in `models.py`; only its
presence matters to the state machine, so inner records are untouched here. -/
structure Package where
  total_price : Rat
deriving DecidableEq

/-- One outcome of the extraction oracle call inside
`TravelAI.extract_travel_info`: either a parsed JSON reply (patch, own
completeness opinion, optional follow-up question) or any raised exception
(API error, JSON parse error, timeout). -/
inductive OracleOutcome where
  | ok (extracted : ExtractedInfo) (is_complete : Bool) (follow_up : Option String)
  | failure
deriving DecidableEq

/-- The dictionary `TravelAI.extract_travel_info` returns to its callers
(the keys the handlers read). -/
structure AIResult where
  travel_request : TravelRequest
  is_complete : Bool
  follow_up_question : Option String
deriving DecidableEq

/-- The generic re-prompt of the `except` branch of
`TravelAI.extract_travel_info` (`travel_ai.py` line 119). -/
def genericReprompt : String :=
  "I\x27m sorry, I didn\x27t understand that. Could you please tell me where you\x27d like to travel from and to?"

/-- Embedding of `TravelAI.extract_travel_info` (`travel_ai.py` lines 22-122), indexed by
the oracle outcome: on success it merges the patch into the current request
(`current_request or TravelRequest()`); on any exception it returns the
current request unchanged, `is_complete = False` and the generic re-prompt. -/
def extract_travel_info (current : Option TravelRequest) : OracleOutcome → AIResult
  | .ok extracted oracleComplete followUp =>
    { travel_request := update_request (current.getD {}) extracted
      is_complete := oracleComplete
      follow_up_question := followUp }
  | .failure =>
    { travel_request := current.getD {}
      is_complete := false
      follow_up_question := some genericReprompt }

/-- Embedding of `TravelAI.generate_follow_up_question` (`travel_ai.py` lines 160-186):
first missing required field in priority order, then the optional-field
questions, with Python truthiness on `return_date`/`duration_days`/`budget`. -/
def generate_follow_up_question (r : TravelRequest) : String :=
  let missing := r.missing_fields
  if missing.isEmpty then
    "Great! I have all the information I need. Let me search for the best options for you."
  else if missing.contains "origin" then
    "Where would you like to travel from?"
  else if missing.contains "destination" then
    "Where would you like to go?"
  else if missing.contains "departure_date" then
    "When would you like to depart?"
  else if missing.contains "user_email" then
    "What\x27s your email address so I can send you the booking details?"
  else if !pyTruthyDate r.return_date && !pyTruthyInt r.duration_days then
    "How long would you like to stay? (e.g., \x273 days\x27 or \x27return on Friday\x27)"
  else if r.passengers == 1 then
    "How many travelers will there be?"
  else if !pyTruthyRat r.budget then
    "Do you have a budget in mind for this trip?"
  else
    "Is there anything else you\x27d like to specify for your trip?"

/-- Typed turn response of `TravelBookingAPI.process_message` (`main.py`):
either a follow-up question dict or the terminal dict of
`_handle_complete_request` (package and email flag; the formatted message
text is presentation only). -/
inductive ApiResponse where
  | question (message : String)
  | complete (package : Option Package) (email_sent : Bool)
deriving DecidableEq

/-- Gmail auto-fill of `main.py` lines 89-90 / `app.py` lines 52-53: when the
customer is logged in and the merged request has a falsy email, the account
email is written into the request. -/
def gmail_autofill (loggedIn : Bool) (custEmail : String) (tr : TravelRequest) :
    TravelRequest :=
  if loggedIn && !pyTruthyStr tr.user_email then
    { tr with user_email := some custEmail }
  else
    tr

/-- Embedding of `TravelBookingAPI._handle_complete_request` (`main.py` lines
110-157; `app.py` lines 68-114 is the same flow): search (an exception counts
as no package), then email with `(request, package)`, then delete the session.
The third component logs every invocation of the email oracle. -/
def handle_complete_request (sessions : Store) (uid : String) (r : TravelRequest)
    (search : TravelRequest → Option Package)
    (emailer : TravelRequest → Option Package → Bool) :
    ApiResponse × Store × List (TravelRequest × Option Package) :=
  let package := search r
  let email_sent := emailer r package
  let sessions2 := storeDel sessions uid
  (ApiResponse.complete package email_sent, sessions2, [(r, package)])

/-- Embedding of `TravelBookingAPI.process_message` (`main.py` lines 79-108;
`app.py` lines 36-66 is the same flow returning the bare message string):
extract, auto-fill, store unconditionally, then fulfil only when both the
oracle completeness opinion and `TravelRequest.is_complete` hold; otherwise
return the follow-up question (falling back to
`generate_follow_up_question` when the oracle question is falsy). -/
def api_process_message (sessions : Store) (uid : String) (o : OracleOutcome)
    (loggedIn : Bool) (custEmail : String)
    (search : TravelRequest → Option Package)
    (emailer : TravelRequest → Option Package → Bool) :
    ApiResponse × Store × List (TravelRequest × Option Package) :=
  let ai := extract_travel_info (storeGet sessions uid) o
  let tr := gmail_autofill loggedIn custEmail ai.travel_request
  let sessions1 := storePut sessions uid tr
  if ai.is_complete && tr.is_complete then
    handle_complete_request sessions1 uid tr search emailer
  else
    let fu := match ai.follow_up_question with
      | some s => if s = "" then generate_follow_up_question tr else s
      | none => generate_follow_up_question tr
    (ApiResponse.question fu, sessions1, [])

/-- Typed turn response of `Handler.process_travel_request` (`api/index.py`).
A question message is optional because the oracle follow-up may be null and
`extraction_result.get` only falls back when the key is absent (it never is). -/
inductive IndexResponse where
  | question (message : Option String)
  | no_results (message : String) (travel_request : TravelRequest)
  | success (travel_request : TravelRequest) (package : Package) (email_sent : Bool)
deriving DecidableEq

/-- Literal no-results message of `api/index.py` line 194. -/
def noResultsMessage : String :=
  "I couldn\x27t find any travel packages matching your criteria. Try adjusting your budget or dates."

/-- Literal email-request message of `api/index.py` line 157. -/
def emailRequestMessage : String :=
  "Great! I have all the details I need. What\x27s your email address so I can send you the travel package?"

/-- Embedding of `Handler._complete_travel_request` (`api/index.py` lines
184-217): when search finds no package the function returns `no_results`
immediately — before the email send and before the session delete; otherwise
it emails, deletes the session and returns `success`.  The third component
logs every invocation of the email oracle. -/
def complete_travel_request (tr : TravelRequest) (sid : String)
    (search : TravelRequest → Option Package)
    (emailer : TravelRequest → Option Package → Bool) (store : Store) :
    IndexResponse × Store × List (TravelRequest × Option Package) :=
  match search tr with
  | none => (IndexResponse.no_results noResultsMessage tr, store, [])
  | some pkg =>
    let email_sent := emailer tr (some pkg)
    let store1 := storeDel store sid
    (IndexResponse.success tr pkg email_sent, store1, [(tr, some pkg)])

/-- Guard of the bare-email shortcut (`api/index.py` line 108):
`self._is_email_only(message) and current_request and not current_request.user_email`.
A pydantic model instance is always truthy, so the middle conjunct is presence
of a session entry; the last conjunct is Python truthiness of the email. -/
def bare_email_guard (message : String) (current : Option TravelRequest) : Bool :=
  is_email_only message &&
    (match current with
     | some r => !pyTruthyStr r.user_email
     | none => false)

/-- Extraction branch of `Handler.process_travel_request` (`api/index.py`
lines 117-164): call the oracle, store the merged request unconditionally,
then branch on the oracle completeness opinion, on a falsy email, and finally
fulfil.  (The `if not extraction_result ...` failure check on line 124 is dead:
`extract_travel_info` always returns a dict with a `travel_request` key.) -/
def index_extraction_branch (store : Store) (sid : String) (o : OracleOutcome)
    (search : TravelRequest → Option Package)
    (emailer : TravelRequest → Option Package → Bool) :
    IndexResponse × Store × List (TravelRequest × Option Package) :=
  let ext := extract_travel_info (storeGet store sid) o
  let tr := ext.travel_request
  let store1 := storePut store sid tr
  if ext.is_complete = false then
    (IndexResponse.question ext.follow_up_question, store1, [])
  else if !pyTruthyStr tr.user_email then
    (IndexResponse.question (some emailRequestMessage), store1, [])
  else
    complete_travel_request tr sid search emailer store1

/-- Embedding of `Handler.process_travel_request` (`api/index.py` lines
95-176): the bare-email shortcut sets `user_email` to the stripped message,
stores the request and fulfils directly, skipping the extraction oracle;
otherwise the extraction branch runs. -/
def process_travel_request (store : Store) (sid : String) (message : String)
    (o : OracleOutcome) (search : TravelRequest → Option Package)
    (emailer : TravelRequest → Option Package → Bool) :
    IndexResponse × Store × List (TravelRequest × Option Package) :=
  let current := storeGet store sid
  if bare_email_guard message current then
    let r := { current.getD {} with user_email := some (pyStrip message) }
    let store1 := storePut store sid r
    complete_travel_request r sid search emailer store1
  else
    index_extraction_branch store sid o search emailer

theorem pyTruthyStr_iff (o : Option String) :
    pyTruthyStr o = true ↔ ∃ s, o = some s ∧ s ≠ "" := by
  cases o <;> simp [pyTruthyStr]

theorem derive_origin (u : TravelRequest) : (derive u).origin = u.origin := by
  unfold derive; split_ifs <;> rfl

theorem derive_destination (u : TravelRequest) :
    (derive u).destination = u.destination := by
  unfold derive; split_ifs <;> rfl

theorem derive_departure (u : TravelRequest) :
    (derive u).departure_date = u.departure_date := by
  unfold derive; split_ifs <;> rfl

theorem derive_passengers (u : TravelRequest) :
    (derive u).passengers = u.passengers := by
  unfold derive; split_ifs <;> rfl

theorem derive_user_email (u : TravelRequest) :
    (derive u).user_email = u.user_email := by
  unfold derive; split_ifs <;> rfl

theorem derive_budget (u : TravelRequest) : (derive u).budget = u.budget := by
  unfold derive; split_ifs <;> rfl

/-- Sample request whose `origin` is the empty string and whose other three
required fields are set: every required field is non-null. -/
def rEmptyOrigin : TravelRequest :=
  { origin := some "", destination := some "London",
    departure_date := some 739000, user_email := some "a@b.com" }

/-- C3 (amended): `is_complete` is true iff `origin`, `destination` and
`userEmail` are non-null *and non-empty* and `departureDate` is non-null,
independent of `returnDate`, `durationDays`, `budget` and `passengers`. -/
theorem is_complete_truthiness_characterization (r : TravelRequest) :
    (r.is_complete = true ↔
      ((∃ s, r.origin = some s ∧ s ≠ "") ∧
       (∃ s, r.destination = some s ∧ s ≠ "") ∧
       r.departure_date.isSome = true ∧
       (∃ s, r.user_email = some s ∧ s ≠ ""))) ∧
    (∀ rd dd b p, TravelRequest.is_complete
        { r with return_date := rd, duration_days := dd, budget := b,
                 passengers := p } = r.is_complete) := by
  constructor
  · simp [TravelRequest.is_complete, pyTruthyStr_iff, pyTruthyDate, and_assoc]
  · intro rd dd b p; rfl

/-- C3 counterexample: a request whose four required fields are all non-null
(origin is the empty string) yet `is_complete` returns false — so
"complete iff all required fields non-null" fails on the code. -/
theorem is_complete_nonnull_counterexample :
    rEmptyOrigin.origin ≠ none ∧ rEmptyOrigin.destination ≠ none ∧
    rEmptyOrigin.departure_date ≠ none ∧ rEmptyOrigin.user_email ≠ none ∧
    rEmptyOrigin.is_complete = false := by
  refine ⟨?_, ?_, ?_, ?_, rfl⟩ <;> simp [rEmptyOrigin]

/-- C10: `is_complete` is true iff `missing_fields` is empty, and both treat
an empty-string required field as missing: a model whose origin is `""` is
incomplete and reports `"origin"` among its missing fields. -/
theorem is_complete_iff_no_missing_fields (r : TravelRequest) :
    (r.is_complete = true ↔ r.missing_fields = []) ∧
    (r.origin = some "" → r.is_complete = false ∧ "origin" ∈ r.missing_fields) := by
  constructor
  · simp only [TravelRequest.is_complete, TravelRequest.missing_fields]
    cases pyTruthyStr r.origin <;> cases pyTruthyStr r.destination <;>
      cases pyTruthyDate r.departure_date <;> cases pyTruthyStr r.user_email <;> simp
  · intro h
    have ho : pyTruthyStr r.origin = false := by rw [h]; rfl
    constructor
    · simp [TravelRequest.is_complete, ho]
    · simp [TravelRequest.missing_fields, ho]

/-- C10 witness: the two parts evaluated at `rEmptyOrigin`. -/
theorem is_complete_iff_no_missing_fields_witness :
    rEmptyOrigin.is_complete = false ∧ "origin" ∈ rEmptyOrigin.missing_fields :=
  (is_complete_iff_no_missing_fields rEmptyOrigin).2 rfl

theorem derive_fire1 (u : TravelRequest) (d n : Int)
    (h1 : u.departure_date = some d) (h2 : u.duration_days = some n)
    (h3 : n ≠ 0) (h4 : u.return_date = none) :
    derive u = { u with return_date := some (d + n) } := by
  simp [derive, pyTruthyDate, pyTruthyInt, h1, h2, h3, h4]

theorem derive_fire2 (u : TravelRequest) (d r : Int)
    (h1 : u.departure_date = some d) (h2 : u.return_date = some r)
    (h3 : pyTruthyInt u.duration_days = false) :
    derive u = { u with duration_days := some (r - d) } := by
  simp [derive, pyTruthyDate, h1, h2, h3]

theorem derive_nofire_present (u : TravelRequest)
    (h1 : pyTruthyInt u.duration_days = true)
    (h2 : u.return_date.isSome = true) : derive u = u := by
  simp [derive, pyTruthyDate, h1, h2]

theorem derive_nofire_nodep (u : TravelRequest)
    (h : u.departure_date = none) : derive u = u := by
  simp [derive, pyTruthyDate, h]

theorem derive_nofire_absent (u : TravelRequest)
    (h1 : u.return_date = none)
    (h2 : pyTruthyInt u.duration_days = false) : derive u = u := by
  simp [derive, pyTruthyDate, h1, h2]

/-- Patch setting departure, return and a zero duration all at once. -/
def p40 : ExtractedInfo :=
  { departure_date := some (.valid 100), return_date := some (.valid 105),
    duration_days := some 0 }

/-- Patch setting departure and a duration of three days. -/
def p41 : ExtractedInfo :=
  { departure_date := some (.valid 100), duration_days := some 3 }

/-- C4 (amended): the derivation runs exactly once after the literal
overwrites, with Python truthiness deciding presence: `returnDate` is derived
iff departure is present, duration is present *and nonzero* and return is
absent; `durationDays` is derived iff departure and return are present and
duration is *null or zero* (so a just-patched zero duration is overwritten);
when return is present and duration nonzero, when departure is absent, or
when return is absent and duration is null or zero, nothing is touched —
the five cases cover every state, so each field is derived exactly in its
stated case and in no other. -/
theorem derivation_characterization (cur : TravelRequest) (p : ExtractedInfo) :
    update_request cur p = derive (applyPatch cur p) ∧
    (∀ d n, (applyPatch cur p).departure_date = some d →
      (applyPatch cur p).duration_days = some n → n ≠ 0 →
      (applyPatch cur p).return_date = none →
      derive (applyPatch cur p) =
        { applyPatch cur p with return_date := some (d + n) }) ∧
    (∀ d r, (applyPatch cur p).departure_date = some d →
      (applyPatch cur p).return_date = some r →
      pyTruthyInt (applyPatch cur p).duration_days = false →
      derive (applyPatch cur p) =
        { applyPatch cur p with duration_days := some (r - d) }) ∧
    (pyTruthyInt (applyPatch cur p).duration_days = true →
      (applyPatch cur p).return_date.isSome = true →
      derive (applyPatch cur p) = applyPatch cur p) ∧
    ((applyPatch cur p).departure_date = none →
      derive (applyPatch cur p) = applyPatch cur p) ∧
    ((applyPatch cur p).return_date = none →
      pyTruthyInt (applyPatch cur p).duration_days = false →
      derive (applyPatch cur p) = applyPatch cur p) :=
  ⟨rfl,
   fun d n h1 h2 h3 h4 => derive_fire1 _ d n h1 h2 h3 h4,
   fun d r h1 h2 h3 => derive_fire2 _ d r h1 h2 h3,
   fun h1 h2 => derive_nofire_present _ h1 h2,
   fun h => derive_nofire_nodep _ h,
   fun h1 h2 => derive_nofire_absent _ h1 h2⟩

/-- C4 witness: on the patch `p41` over an empty model the first derivation
case fires and sets the return date. -/
theorem derivation_characterization_witness :
    derive (applyPatch {} p41) =
      { applyPatch {} p41 with return_date := some (100 + 3) } :=
  (derivation_characterization {} p41).2.1 100 3 rfl rfl (by decide) rfl

/-- C4 counterexample: the patch `p40` leaves both `returnDate` and a zero
`durationDays` present after the literal overwrites, yet the merge rewrites
`durationDays` to `5` — the claim says neither field is touched then, and
that a patched field is never re-derived. -/
theorem derivation_zero_duration_counterexample :
    (applyPatch {} p40).return_date = some 105 ∧
    (applyPatch {} p40).duration_days = some 0 ∧
    (update_request {} p40).duration_days = some 5 := by
  refine ⟨rfl, rfl, ?_⟩; decide

/-- Patch whose return date lands five days before its departure date. -/
def p80 : ExtractedInfo :=
  { departure_date := some (.valid 110), return_date := some (.valid 105) }

/-- C8 (amended): a nonsensical derived duration is *not* treated as
"could not derive": whenever the second derivation case fires with the return
date strictly before the departure date, the negative difference is stored in
`durationDays` (no error is surfaced — the merge is total). -/
theorem negative_duration_stored (cur : TravelRequest) (p : ExtractedInfo)
    (d r : Int) (h1 : (applyPatch cur p).departure_date = some d)
    (h2 : (applyPatch cur p).return_date = some r)
    (h3 : pyTruthyInt (applyPatch cur p).duration_days = false)
    (h4 : r < d) :
    (update_request cur p).duration_days = some (r - d) ∧ r - d < 0 := by
  constructor
  · rw [update_request, derive_fire2 _ d r h1 h2 h3]
  · omega

/-- C8 witness: the negative-duration case evaluated on `p80`. -/
theorem negative_duration_stored_witness :
    (update_request {} p80).duration_days = some (105 - 110) ∧
      (105 : Int) - 110 < 0 :=
  negative_duration_stored {} p80 110 105 rfl rfl rfl (by decide)

/-- C8 counterexample: merging `p80` into an empty model stores
`durationDays = -5` instead of leaving the field null. -/
theorem negative_duration_counterexample :
    (update_request {} p80).duration_days = some (-5) ∧
      (update_request {} p80).duration_days ≠ none := by
  constructor
  · decide
  · decide

/-- Patch carrying `passengers = 0`. -/
def p90 : ExtractedInfo := { passengers := some 0 }

/-- C9 (amended): a fresh model has `passengers = 1`, and a merge keeps
`passengers ≥ 1` only conditionally — the code never enforces the minimum, so
the invariant holds exactly when every patch whose `passengers` is non-null
supplies a value ≥ 1. -/
theorem passengers_invariant_conditional :
    (({} : TravelRequest).passengers = 1) ∧
    (∀ (B : TravelRequest) (P : ExtractedInfo), 1 ≤ B.passengers →
      (∀ n, P.passengers = some n → 1 ≤ n) →
      1 ≤ (update_request B P).passengers) := by
  refine ⟨rfl, ?_⟩
  intro B P hB hP
  rw [update_request, derive_passengers]
  show 1 ≤ patchPassengers B.passengers P.passengers
  cases h : P.passengers with
  | none => simpa [patchPassengers] using hB
  | some n => simpa [patchPassengers] using hP n h

/-- C9 witness: a merge whose patch carries `passengers = 2` keeps the
invariant. -/
theorem passengers_invariant_conditional_witness :
    1 ≤ (update_request {} { passengers := some 2 }).passengers :=
  passengers_invariant_conditional.2 {} { passengers := some 2 } (by decide)
    (by intro n h
        have h' : (some 2 : Option Int) = some n := h
        injection h' with h2
        omega)

/-- C9 counterexample: an arbitrary patch can set `passengers = 0`, so the
invariant `passengers ≥ 1` does not hold for every reachable model. -/
theorem passengers_zero_counterexample :
    (update_request {} p90).passengers = 0 ∧
      ¬ 1 ≤ (update_request {} p90).passengers := by
  refine ⟨?_, ?_⟩ <;> decide

/-- Four-field-complete sample request. -/
def rComplete : TravelRequest :=
  { origin := some "Porto", destination := some "London",
    departure_date := some 739000, user_email := some "a@b.com" }

/-- Store holding `rComplete` under session id `"s1"`. -/
def s6 : Store := storePut emptyStore "s1" rComplete

/-- C6 (amended): in the Vercel handler, when the search oracle returns no
package the turn answers with a `no_results` response, the email oracle is
*not* invoked, and the session entry is *not* deleted — the store is returned
unchanged (the early return precedes both the email send and the delete). -/
theorem no_package_no_results (tr : TravelRequest) (sid : String)
    (search : TravelRequest → Option Package)
    (emailer : TravelRequest → Option Package → Bool) (store : Store)
    (h : search tr = none) :
    complete_travel_request tr sid search emailer store =
      (IndexResponse.no_results noResultsMessage tr, store, []) := by
  simp [complete_travel_request, h]

/-- C6 witness: the no-package branch evaluated on a concrete store. -/
theorem no_package_no_results_witness :
    complete_travel_request rComplete "s1" (fun _ => none) (fun _ _ => true) s6 =
      (IndexResponse.no_results noResultsMessage rComplete, s6, []) :=
  no_package_no_results rComplete "s1" (fun _ => none) (fun _ _ => true) s6 rfl

/-- C6 counterexample: with a search oracle returning no package, the email
log stays empty and the session entry survives — contradicting "the email
oracle is nevertheless invoked … and the session entry is deleted". -/
theorem no_results_keeps_session_counterexample :
    (complete_travel_request rComplete "s1" (fun _ => none) (fun _ _ => true)
        s6).2.2 = [] ∧
    (complete_travel_request rComplete "s1" (fun _ => none) (fun _ _ => true)
        s6).2.1 "s1" = some rComplete := by
  refine ⟨rfl, ?_⟩
  decide

/-- Request with everything but the email present (and one with only an
origin, for the counterexample). -/
def rAlmost : TravelRequest :=
  { origin := some "Porto", destination := some "London",
    departure_date := some 739000 }

/-- Request missing destination, departure date *and* email. -/
def rOriginOnly : TravelRequest := { origin := some "Porto" }

/-- C1 (amended): the bare-email shortcut fires iff the stripped message
matches the email regex, a RequestModel exists for the session, and its
`userEmail` is null or empty — with *no* requirement that origin, destination
or departure date be present.  When it fires, `userEmail` is set to the
stripped message and fulfilment runs directly on the stored request, with the
extraction oracle never consulted (the outcome is the same for every oracle
behaviour); when the guard is false the extraction branch runs. -/
theorem bare_email_shortcut_characterization (store : Store) (sid msg : String)
    (o : OracleOutcome) (search : TravelRequest → Option Package)
    (emailer : TravelRequest → Option Package → Bool) :
    (∀ r, store sid = some r → is_email_only msg = true →
      pyTruthyStr r.user_email = false →
      process_travel_request store sid msg o search emailer =
        complete_travel_request { r with user_email := some (pyStrip msg) } sid
          search emailer
          (storePut store sid { r with user_email := some (pyStrip msg) })) ∧
    (bare_email_guard msg (storeGet store sid) = false →
      process_travel_request store sid msg o search emailer =
        index_extraction_branch store sid o search emailer) := by
  constructor
  · intro r hr hm he
    have hg : bare_email_guard msg (some r) = true := by
      simp [bare_email_guard, hm, he]
    simp [process_travel_request, storeGet, hr, hg]
  · intro hg
    simp [process_travel_request, hg]

/-- C1 witness: a session that misses only the email, receiving the bare
message `"a@b.com"`, is fulfilled directly. -/
theorem bare_email_shortcut_characterization_witness :
    process_travel_request (storePut emptyStore "s2" rAlmost) "s2" "a@b.com"
        .failure (fun _ => none) (fun _ _ => true) =
      complete_travel_request { rAlmost with user_email := some (pyStrip "a@b.com") }
        "s2" (fun _ => none) (fun _ _ => true)
        (storePut (storePut emptyStore "s2" rAlmost) "s2"
          { rAlmost with user_email := some (pyStrip "a@b.com") }) :=
  (bare_email_shortcut_characterization (storePut emptyStore "s2" rAlmost) "s2"
      "a@b.com" .failure (fun _ => none) (fun _ _ => true)).1 rAlmost
    (by decide) (by decide) rfl

/-- C1 counterexample: for a session holding only an origin — destination,
departure date and email all missing — the guard still fires on the bare
message `"a@b.com"`, and the turn goes straight to fulfilment (here the
no-results branch) although `userEmail` is not the only missing required
field. -/
theorem bare_email_shortcut_counterexample :
    bare_email_guard "a@b.com" (storeGet (storePut emptyStore "s3" rOriginOnly) "s3") = true ∧
    rOriginOnly.missing_fields =
      ["destination", "departure_date", "user_email"] ∧
    (process_travel_request (storePut emptyStore "s3" rOriginOnly) "s3" "a@b.com"
        .failure (fun _ => none) (fun _ _ => true)).1 =
      IndexResponse.no_results noResultsMessage
        { rOriginOnly with user_email := some "a@b.com" } := by
  refine ⟨by decide, by decide, ?_⟩
  decide

/-- Discriminator: does a `main.py` turn response signal fulfilment
(the terminal dict built by `_handle_complete_request`)? -/
def isFulfilment : ApiResponse → Bool
  | .complete _ _ => true
  | .question _ => false

/-- Completeness opinion carried by the oracle outcome (`False` after an
exception, mirroring the fallback dict). -/
def oracleSaysComplete : OracleOutcome → Bool
  | .ok _ c _ => c
  | .failure => false

/-- C2 (amended): a turn transitions to fulfilment iff *both* the oracle
completeness opinion and `TravelRequest.is_complete` of the merged
(auto-filled) model hold — the opinion is a hard conjunct in
`if ai_result["is_complete"] and ai_result["travel_request"].is_complete()`,
not an advisory signal. -/
theorem fulfilment_iff_oracle_and_model_complete (sessions : Store)
    (uid : String) (o : OracleOutcome) (loggedIn : Bool) (custEmail : String)
    (search : TravelRequest → Option Package)
    (emailer : TravelRequest → Option Package → Bool) :
    isFulfilment
        (api_process_message sessions uid o loggedIn custEmail search emailer).1 =
      (oracleSaysComplete o &&
        (gmail_autofill loggedIn custEmail
          (extract_travel_info (storeGet sessions uid) o).travel_request).is_complete) := by
  cases o with
  | ok e c f =>
    simp only [api_process_message, oracleSaysComplete]
    split
    · next h =>
      rw [show (extract_travel_info (storeGet sessions uid) (.ok e c f)).is_complete = c
        from rfl] at h
      simp [handle_complete_request, isFulfilment, h]
    · next h =>
      rw [show (extract_travel_info (storeGet sessions uid) (.ok e c f)).is_complete = c
        from rfl] at h
      simp only [isFulfilment]
      simpa using (Bool.not_eq_true _).mp h
  | failure =>
    simp [api_process_message, extract_travel_info, isFulfilment, oracleSaysComplete]

/-- Session store holding `rComplete` under `"u1"`. -/
def s2c : Store := storePut emptyStore "u1" rComplete

/-- C2 counterexample: the merged model is complete, yet because the oracle
opinion in the outcome is `false` the turn stays in the question state — the
opinion does change the decision, against the claim that only
`isComplete()` is authoritative. -/
theorem oracle_veto_counterexample :
    (extract_travel_info (storeGet s2c "u1")
        (.ok {} false none)).travel_request.is_complete = true ∧
    (api_process_message s2c "u1" (.ok {} false none) false ""
        (fun _ => some { total_price := 100 }) (fun _ _ => true)).1 =
      ApiResponse.question
        "Great! I have all the information I need. Let me search for the best options for you." := by
  constructor
  · decide
  · decide

theorem storePut_self (s : Store) (k : String) (r : TravelRequest)
    (h : s k = some r) : storePut s k r = s := by
  funext k'
  by_cases hk : k' = k
  · subst hk; simp [storePut, h]
  · simp [storePut, hk]

/-- C5 (amended): when the extraction oracle raises or times out, provided the
session already holds a model and the Gmail auto-fill is inactive (customer
not logged in), the turn returns a question-type response carrying the generic
re-prompt, the store is exactly unchanged (the stored model equals its value
before the turn), and no email is sent. -/
theorem oracle_failure_preserves_session (sessions : Store) (uid : String)
    (r : TravelRequest) (custEmail : String)
    (search : TravelRequest → Option Package)
    (emailer : TravelRequest → Option Package → Bool)
    (h : sessions uid = some r) :
    api_process_message sessions uid .failure false custEmail search emailer =
      (ApiResponse.question genericReprompt, sessions, []) := by
  have hput : storePut sessions uid r = sessions := storePut_self sessions uid r h
  have hne : ¬ (genericReprompt = "") := by decide
  simp [api_process_message, extract_travel_info, storeGet, h, gmail_autofill,
    hput, hne]

/-- Store holding a request with only an origin, under `"u2"`. -/
def s5 : Store := storePut emptyStore "u2" rOriginOnly

/-- C5 witness: a failed-oracle turn on `s5` leaves the store untouched and
asks the generic re-prompt. -/
theorem oracle_failure_preserves_session_witness :
    api_process_message s5 "u2" .failure false "" (fun _ => none)
        (fun _ _ => false) =
      (ApiResponse.question genericReprompt, s5, []) :=
  oracle_failure_preserves_session s5 "u2" rOriginOnly "" (fun _ => none)
    (fun _ _ => false) (by decide)

/-- C5 counterexample: with the customer logged in via Gmail OAuth, a
failed-oracle turn rewrites the stored model (auto-filling `userEmail`), so
the RequestModel is *not* unchanged from before the failed turn. -/
theorem oracle_failure_autofill_counterexample :
    (api_process_message s5 "u2" .failure true "me@x.com" (fun _ => none)
        (fun _ _ => false)).2.1 "u2" =
      some { rOriginOnly with user_email := some "me@x.com" } ∧
    rOriginOnly.user_email = none ∧
    some { rOriginOnly with user_email := some "me@x.com" } ≠ some rOriginOnly := by
  refine ⟨?_, rfl, ?_⟩
  · decide
  · decide

theorem pyTruthyDate_eq_true (o : Option Int) :
    pyTruthyDate o = true ↔ ∃ d, o = some d := by
  cases o <;> simp [pyTruthyDate]

theorem pyTruthyDate_eq_false (o : Option Int) :
    pyTruthyDate o = false ↔ o = none := by
  cases o <;> simp [pyTruthyDate]

theorem pyTruthyInt_eq_true (o : Option Int) :
    pyTruthyInt o = true ↔ ∃ n, o = some n ∧ n ≠ 0 := by
  cases o <;> simp [pyTruthyInt]

theorem pyTruthyInt_eq_false (o : Option Int) :
    pyTruthyInt o = false ↔ o = none ∨ o = some 0 := by
  cases o <;> simp [pyTruthyInt]

theorem patchField_idem {α : Type} (b : Option α) (p : Option α) :
    patchField (patchField b p) p = patchField b p := by
  cases p <;> rfl

theorem patchDate_idem (b : Option Int) (p : Option DateInput) :
    patchDate (patchDate b p) p = patchDate b p := by
  cases p with
  | none => rfl
  | some di => cases di <;> rfl

theorem patchPassengers_idem (b : Int) (p : Option Int) :
    patchPassengers (patchPassengers b p) p = patchPassengers b p := by
  cases p <;> rfl

theorem applyPatch_applyPatch (B : TravelRequest) (P : ExtractedInfo) :
    applyPatch (applyPatch B P) P = applyPatch B P := by
  simp [applyPatch, patchField_idem, patchDate_idem, patchPassengers_idem]

theorem patchDate_keep (b : Option Int) (p : Option DateInput)
    (h : patchDate b p = none) (v : Option Int) : patchDate v p = v := by
  cases p with
  | none => rfl
  | some di => cases di with
    | valid d => simp [patchDate] at h
    | malformed => rfl

theorem applyPatch_update_ret (u : TravelRequest) (P : ExtractedInfo)
    (x : Option Int) :
    applyPatch { u with return_date := x } P =
      { applyPatch u P with return_date := patchDate x P.return_date } := rfl

theorem applyPatch_update_dur (u : TravelRequest) (P : ExtractedInfo)
    (x : Option Int) :
    applyPatch { u with duration_days := x } P =
      { applyPatch u P with duration_days := patchField x P.duration_days } := rfl

theorem derive_nofire_neg (u : TravelRequest)
    (h1 : (pyTruthyDate u.departure_date && pyTruthyInt u.duration_days &&
      !pyTruthyDate u.return_date) = false)
    (h2 : (pyTruthyDate u.departure_date && pyTruthyDate u.return_date &&
      !pyTruthyInt u.duration_days) = false) : derive u = u := by
  simp [derive, h1, h2]

/-- C7: merge is idempotent on repeated application of the same patch,
including the return-date/duration derivation step:
`merge(merge(B,P),P) = merge(B,P)`. -/
theorem update_request_idempotent (B : TravelRequest) (P : ExtractedInfo) :
    update_request (update_request B P) P = update_request B P := by
  show derive (applyPatch (derive (applyPatch B P)) P) = derive (applyPatch B P)
  set A := applyPatch B P with hA
  have hAA : applyPatch A P = A := by rw [hA]; exact applyPatch_applyPatch B P
  by_cases c1 : (pyTruthyDate A.departure_date && pyTruthyInt A.duration_days &&
      !pyTruthyDate A.return_date) = true
  · simp only [Bool.and_eq_true, Bool.not_eq_true'] at c1
    obtain ⟨⟨hdep, hdur⟩, hret⟩ := c1
    obtain ⟨d, hd⟩ := (pyTruthyDate_eq_true _).mp hdep
    obtain ⟨n, hn, hn0⟩ := (pyTruthyInt_eq_true _).mp hdur
    have hretn : A.return_date = none := (pyTruthyDate_eq_false _).mp hret
    have hM : derive A = { A with return_date := some (d + n) } :=
      derive_fire1 A d n hd hn hn0 hretn
    rw [hM, applyPatch_update_ret, hAA]
    have hbase : patchDate B.return_date P.return_date = none := by
      rw [hA] at hretn; exact hretn
    rw [patchDate_keep _ _ hbase]
    apply derive_nofire_present
    · show pyTruthyInt A.duration_days = true
      exact hdur
    · rfl
  · by_cases c2 : (pyTruthyDate A.departure_date && pyTruthyDate A.return_date &&
        !pyTruthyInt A.duration_days) = true
    · simp only [Bool.and_eq_true, Bool.not_eq_true'] at c2
      obtain ⟨⟨hdep, hret⟩, hdurF⟩ := c2
      obtain ⟨d, hd⟩ := (pyTruthyDate_eq_true _).mp hdep
      obtain ⟨r, hr⟩ := (pyTruthyDate_eq_true _).mp hret
      have hM : derive A = { A with duration_days := some (r - d) } :=
        derive_fire2 A d r hd hr hdurF
      rw [hM, applyPatch_update_dur, hAA]
      cases hpd : P.duration_days with
      | none =>
        rw [show patchField (some (r - d)) (none : Option Int) = some (r - d)
          from rfl]
        by_cases h0 : r - d = 0
        · have hfire := derive_fire2 { A with duration_days := some (r - d) } d r
            hd hr (by simp [pyTruthyInt, h0])
          rw [hfire]
        · apply derive_nofire_present
          · show pyTruthyInt (some (r - d)) = true
            simp [pyTruthyInt, h0]
          · show A.return_date.isSome = true
            rw [hr]; rfl
      | some m =>
        have hAdur : A.duration_days = some m := by
          rw [hA]
          show patchField B.duration_days P.duration_days = some m
          rw [hpd]; rfl
        have hm0 : m = 0 := by
          rcases (pyTruthyInt_eq_false _).mp hdurF with h | h
          · rw [hAdur] at h; exact absurd h (by simp)
          · rw [hAdur] at h; injection h
        subst hm0
        rw [show patchField (some (r - d)) (some (0 : Int)) = some 0 from rfl]
        have hfire := derive_fire2 { A with duration_days := some (0 : Int) } d r
          hd hr (by simp [pyTruthyInt])
        rw [hfire]
    · have h1 : (pyTruthyDate A.departure_date && pyTruthyInt A.duration_days &&
          !pyTruthyDate A.return_date) = false := by
        exact Bool.not_eq_true _ ▸ (by simpa using c1)
      have h2 : (pyTruthyDate A.departure_date && pyTruthyDate A.return_date &&
          !pyTruthyInt A.duration_days) = false := by
        exact Bool.not_eq_true _ ▸ (by simpa using c2)
      have hM : derive A = A := derive_nofire_neg A h1 h2
      rw [hM, hAA, hM]
